import Mathlib

/-!
Shallow embedding of the peer-synchronization orchestrator implemented in
src/client/network/src/sync_helper.rs (the SyncingHelper type and its
operations).  Peer identities, hashes and block numbers are modelled as
naturals; the HashMap of peers becomes an association list; HashSets become
lists maintained without duplicates; the opaque ChainSync collaborator is
modelled as an explicit registered-peer list plus oracle functions for every
collaborator call the orchestrator makes.  The source's disconnect_peer and
report_peer are TODO stubs delegating to the network layer; the calls the
orchestrator issues to them are recorded in an explicit action log so that
claims about disconnect/penalize decisions can be stated.  Single-use reply
slots are modelled as naturals drawn from a monotone counter.
-/

namespace Sync

abbrev PeerId := Nat
abbrev Hash := Nat
abbrev BlockNumber := Nat

/-- Modelled from the spec: the declared role of a peer or of the local node,
full or light (the Roles bitflag type lives outside this crate's sources;
per the spec data model, `roles` is `full | light`). -/
inductive Roles where
  | full
  | light
deriving DecidableEq

def Roles.is_full : Roles → Bool
  | Roles.full => true
  | Roles.light => false

def Roles.is_light (r : Roles) : Bool := !r.is_full

@[simp] theorem Roles.is_full_full : Roles.is_full Roles.full = true := rfl
@[simp] theorem Roles.is_full_light : Roles.is_full Roles.light = false := rfl
@[simp] theorem Roles.is_light_full : Roles.is_light Roles.full = false := rfl
@[simp] theorem Roles.is_light_light : Roles.is_light Roles.light = true := rfl

/-- Modelled from the spec: reputation changes applied when penalizing a peer.
The named constants mirror the rep module referenced by sync_helper.rs; the
arbitrary constructor stands for reputation values supplied by the chain-sync
collaborator inside a BadPeer rejection. -/
inductive Rep where
  | GENESIS_MISMATCH
  | BAD_ROLE
  | PEER_BEHIND_US_LIGHT
  | BAD_MESSAGE
  | TIMEOUT
  | BAD_PROTOCOL
  | REFUSED
  | BAD_BLOCK_ANNOUNCEMENT
  | arbitrary (n : Nat)
deriving DecidableEq

/-- One call the orchestrator makes into the (stubbed) peer-management layer:
a disconnect, a reputation report, or a debug assertion firing on a
structurally unreachable branch. -/
inductive Action where
  | disconnect (id : PeerId)
  | report (id : PeerId) (rep : Rep)
  | fatalAssert
deriving DecidableEq

/-- BlockAnnouncesHandshake: what a peer presents during negotiation. -/
structure BlockAnnouncesHandshake where
  roles : Roles
  best_number : BlockNumber
  best_hash : Hash
  genesis_hash : Hash
deriving DecidableEq

structure PeerInfo where
  roles : Roles
  best_hash : Hash
  best_number : BlockNumber
deriving DecidableEq

/-- One connected sync peer: negotiated info plus the bounded
least-recently-inserted set of block hashes known to the peer. -/
structure Peer where
  info : PeerInfo
  known_blocks : List Hash
deriving DecidableEq

/-- A block request as far as the orchestrator inspects it: its id and its
requested-fields bitmask (compared against the JUSTIFICATION attribute). -/
structure BlockRequest where
  id : Nat
  fields : Nat
deriving DecidableEq

/-- The BlockAttributes::JUSTIFICATION bit used by on_block_response. -/
def justificationAttribute : Nat := 16

/-- Modelled from the spec: fixed capacity of the per-peer known-blocks set
(MAX_KNOWN_BLOCKS in the protocol module, outside src/). -/
def MAX_KNOWN_BLOCKS : Nat := 1024

/-- Modelled from the spec: fixed threshold beyond which a light local node
rejects peers that are too far behind (LIGHT_MAXIMAL_BLOCKS_DIFFERENCE in the
protocol module, outside src/). -/
def LIGHT_MAXIMAL_BLOCKS_DIFFERENCE : Nat := 8192

/-- The kind tag of a pending request: Block carries the original request. -/
inductive PeerRequest where
  | Block (req : BlockRequest)
  | State
  | WarpProof
deriving DecidableEq

/-- A pending request record: peer, request kind, and the identifier of the
single-use reply slot allocated at dispatch. -/
structure PendingRecord where
  peer : PeerId
  request : PeerRequest
  slot : Nat
deriving DecidableEq

structure BlockData where
  hash : Hash
  header : Option Nat
deriving DecidableEq

structure BlockResponse where
  id : Nat
  blocks : List BlockData
deriving DecidableEq

structure BadPeer where
  id : PeerId
  rep : Rep
deriving DecidableEq

inductive OnBlockData where
  | Import (origin : Nat) (blocks : List BlockData)
  | Request (peer : PeerId) (req : BlockRequest)
  | Continue
deriving DecidableEq

inductive OnBlockJustification where
  | Nothing
  | Import (peer : PeerId) (hash : Hash) (number : BlockNumber) (justifications : Nat)
deriving DecidableEq

inductive OnStateData where
  | Import (origin : Nat) (block : BlockData)
  | Continue
deriving DecidableEq

/-- Outcome events buffered for the surrounding network layer.  Opaque request
payloads are naturals; pending_response carries the reply-slot identifier. -/
inductive CustomMessageOutcome where
  | BlockImport (origin : Nat) (blocks : List BlockData)
  | JustificationImport (peer : PeerId) (hash : Hash) (number : BlockNumber)
      (justifications : Nat)
  | BlockRequest (target : PeerId) (request : Nat) (pending_response : Nat)
  | StateRequest (target : PeerId) (request : Nat) (pending_response : Nat)
  | WarpSyncRequest (target : PeerId) (request : Nat) (pending_response : Nat)
  | SyncConnected (peer : PeerId)
  | SyncDisconnected (peer : PeerId)
  | None
deriving DecidableEq

inductive BlockState where
  | Best
  | Normal
deriving DecidableEq

/-- A decoded block announcement as push_block_announce_validation consumes
it: the announced header's hash and the optional best/normal state flag. -/
structure BlockAnnounce where
  header_hash : Hash
  state : Option BlockState
deriving DecidableEq

/-- libp2p's OutboundFailure variants, as matched by handle_pending_response. -/
inductive OutboundFailure where
  | DialFailure
  | Timeout
  | ConnectionClosed
  | UnsupportedProtocols
deriving DecidableEq

/-- RequestFailure variants, as matched by handle_pending_response. -/
inductive RequestFailure where
  | NotConnected
  | UnknownProtocol
  | Refused
  | Obsolete
  | Network (f : OutboundFailure)
deriving DecidableEq

/-- The chain-synchronization collaborator (the opaque ChainSync trait
object): the list of peers it has registered via new_peer, plus oracle
functions standing for each collaborator call the orchestrator makes.  Only
full-role peers are ever registered. -/
structure ChainSyncState where
  reg : List PeerId
  newPeerResult : PeerId → Hash → BlockNumber → Except BadPeer (Option BlockRequest)
  peerDisconnectedResult : PeerId → Option OnBlockData
  decodeBlockResponseResult : List Nat → Except Nat Nat
  decodeStateResponseResult : List Nat → Except Nat Nat
  blockResponseIntoBlocksResult : BlockRequest → Nat → Except Nat (List BlockData)
  onBlockDataResult : PeerId → Option BlockRequest → BlockResponse → Except BadPeer OnBlockData
  onBlockJustificationResult : PeerId → BlockResponse → Except BadPeer OnBlockJustification
  onStateDataResult : PeerId → Nat → Except BadPeer OnStateData
  onWarpSyncDataResult : PeerId → List Nat → Except BadPeer Unit
  onBlocksProcessedResult : List (Except BadPeer (PeerId × BlockRequest))
  blockRequestsDue : List (PeerId × BlockRequest)
  stateRequestDue : Option (PeerId × Nat)
  justificationRequestsDue : List (PeerId × BlockRequest)
  warpSyncRequestDue : Option (PeerId × Nat)
  createOpaqueBlockRequest : BlockRequest → Nat
  pendingValidations : List (PeerId × Hash × Bool)

/-- ChainSync::num_peers — how many peers the collaborator tracks. -/
def ChainSyncState.num_peers (c : ChainSyncState) : Nat := c.reg.length

/-- ChainSync::new_peer — on acceptance the peer is registered. -/
def ChainSyncState.new_peer (c : ChainSyncState) (who : PeerId) (h : Hash)
    (n : BlockNumber) : ChainSyncState × Except BadPeer (Option BlockRequest) :=
  match c.newPeerResult who h n with
  | Except.ok req => ({ c with reg := who :: c.reg }, Except.ok req)
  | Except.error b => (c, Except.error b)

/-- ChainSync::peer_disconnected — the peer is deregistered. -/
def ChainSyncState.peer_disconnected (c : ChainSyncState) (who : PeerId) :
    ChainSyncState × Option OnBlockData :=
  ({ c with reg := c.reg.erase who }, c.peerDisconnectedResult who)

/-- ChainSync::push_block_announce_validation — recorded as a queued
validation. -/
def ChainSyncState.push_validation (c : ChainSyncState) (who : PeerId)
    (hash : Hash) (b : Bool) : ChainSyncState :=
  { c with pendingValidations := c.pendingValidations ++ [(who, hash, b)] }

/-- The orchestrator state (struct SyncingHelper), with the action log of
calls emitted to disconnect_peer / report_peer appended at the end. -/
structure SyncingHelper where
  chain_sync : ChainSyncState
  genesis_hash : Hash
  chain_best_number : BlockNumber
  peers : List (PeerId × Peer)
  roles : Roles
  default_peers_set_num_full : Nat
  default_peers_set_no_slot_peers : List PeerId
  default_peers_set_no_slot_connected_peers : List PeerId
  default_peers_set_num_light : Nat
  block_announce_data_cache : List (Hash × List Nat)
  pending_responses : List PendingRecord
  pending_messages : List CustomMessageOutcome
  next_slot : Nat
  actions : List Action

/-- Association-list lookup standing for HashMap::get. -/
def lookupKey (l : List (PeerId × Peer)) (k : PeerId) : Option Peer :=
  match l with
  | [] => none
  | kv :: t => if kv.1 = k then some kv.2 else lookupKey t k

/-- HashMap::contains_key. -/
def containsKey (l : List (PeerId × Peer)) (k : PeerId) : Bool :=
  (lookupKey l k).isSome

/-- HashMap::remove (all entries with the key disappear). -/
def eraseKey (l : List (PeerId × Peer)) (k : PeerId) : List (PeerId × Peer) :=
  l.filter (fun kv => kv.1 != k)

/-- HashMap::insert. -/
def insertKey (l : List (PeerId × Peer)) (k : PeerId) (v : Peer) :
    List (PeerId × Peer) :=
  (k, v) :: eraseKey l k

/-- In-place update of the entry at a key (HashMap::get_mut followed by a
mutation of the value). -/
def updateKey (l : List (PeerId × Peer)) (k : PeerId) (v : Peer) :
    List (PeerId × Peer) :=
  l.map (fun kv => if kv.1 = k then (kv.1, v) else kv)

/-- HashSet::insert on a duplicate-free list. -/
def setInsert (x : PeerId) (l : List PeerId) : List PeerId :=
  if x ∈ l then l else x :: l

/-- HashSet::remove. -/
def setErase (x : PeerId) (l : List PeerId) : List PeerId :=
  l.filter (fun y => y != x)

/-- Bounded least-recently-inserted set insert (LruHashSet::insert). -/
def lruInsert (cap : Nat) (x : Hash) (l : List Hash) : List Hash :=
  if x ∈ l then l else (x :: l).take cap

/-- The keys of the Peer Table. -/
def peerTableKeys (l : List (PeerId × Peer)) : List PeerId := l.map Prod.fst

/-- Number of full-role peers in the Peer Table. -/
def countFull (l : List (PeerId × Peer)) : Nat :=
  (l.filter (fun kv => kv.2.info.roles.is_full)).length

/-- The stubbed disconnect_peer: the call is recorded as an action. -/
def disconnect_peer (s : SyncingHelper) (id : PeerId) : SyncingHelper :=
  { s with actions := s.actions ++ [Action.disconnect id] }

/-- The stubbed report_peer: the call is recorded as an action. -/
def report_peer (s : SyncingHelper) (id : PeerId) (r : Rep) : SyncingHelper :=
  { s with actions := s.actions ++ [Action.report id r] }

/-- disconnect_and_report_peer = disconnect_peer then report_peer. -/
def disconnect_and_report_peer (s : SyncingHelper) (id : PeerId) (r : Rep) :
    SyncingHelper :=
  report_peer (disconnect_peer s id) id r

/-- A debug_assert!(false) on a branch the source deems unreachable. -/
def fatal_assert_hit (s : SyncingHelper) : SyncingHelper :=
  { s with actions := s.actions ++ [Action.fatalAssert] }

/-- prepare_block_request: allocate a fresh reply slot, register the pending
record, emit the outcome event carrying the slot. -/
def prepare_block_request (s : SyncingHelper) (who : PeerId)
    (request : BlockRequest) : SyncingHelper × CustomMessageOutcome :=
  let slot := s.next_slot
  let new_request := s.chain_sync.createOpaqueBlockRequest request
  ({ s with
      next_slot := slot + 1,
      pending_responses := s.pending_responses ++
        [{ peer := who, request := PeerRequest.Block request, slot := slot }] },
   CustomMessageOutcome.BlockRequest who new_request slot)

/-- prepare_state_request. -/
def prepare_state_request (s : SyncingHelper) (who : PeerId) (request : Nat) :
    SyncingHelper × CustomMessageOutcome :=
  let slot := s.next_slot
  ({ s with
      next_slot := slot + 1,
      pending_responses := s.pending_responses ++
        [{ peer := who, request := PeerRequest.State, slot := slot }] },
   CustomMessageOutcome.StateRequest who request slot)

/-- prepare_warp_sync_request. -/
def prepare_warp_sync_request (s : SyncingHelper) (who : PeerId) (request : Nat) :
    SyncingHelper × CustomMessageOutcome :=
  let slot := s.next_slot
  ({ s with
      next_slot := slot + 1,
      pending_responses := s.pending_responses ++
        [{ peer := who, request := PeerRequest.WarpProof, slot := slot }] },
   CustomMessageOutcome.WarpSyncRequest who request slot)

/-- on_sync_peer_connected: admission control after a handshake.  The if
chain mirrors the early returns of the source: already-connected guard,
genesis check, the two light-local checks, the full-slot and light-slot
budget checks, then chain-sync registration (full peers only) and insertion
into the Peer Table and, for exempt peers, the no-slot-connected set. -/
def on_sync_peer_connected (s : SyncingHelper) (who : PeerId)
    (status : BlockAnnouncesHandshake) :
    SyncingHelper × Except Unit (Option CustomMessageOutcome) :=
  if containsKey s.peers who = true then
    (fatal_assert_hit s, Except.error ())
  else if status.genesis_hash ≠ s.genesis_hash then
    (disconnect_and_report_peer s who Rep.GENESIS_MISMATCH, Except.error ())
  else if s.roles.is_light = true ∧ status.roles.is_light = true then
    (disconnect_and_report_peer s who Rep.BAD_ROLE, Except.error ())
  else if s.roles.is_light = true ∧
      s.chain_best_number - status.best_number > LIGHT_MAXIMAL_BLOCKS_DIFFERENCE then
    (disconnect_and_report_peer s who Rep.PEER_BEHIND_US_LIGHT, Except.error ())
  else
    let no_slot_peer : Bool := decide (who ∈ s.default_peers_set_no_slot_peers)
    let this_peer_reserved_slot : Nat := if no_slot_peer then 1 else 0
    if status.roles.is_full = true ∧
        s.chain_sync.num_peers ≥
          s.default_peers_set_num_full +
            s.default_peers_set_no_slot_connected_peers.length +
            this_peer_reserved_slot then
      (disconnect_peer s who, Except.error ())
    else if status.roles.is_light = true ∧
        s.peers.length - s.chain_sync.num_peers ≥ s.default_peers_set_num_light then
      (disconnect_peer s who, Except.error ())
    else
      let peer : Peer :=
        { info :=
            { roles := status.roles, best_hash := status.best_hash,
              best_number := status.best_number },
          known_blocks := [] }
      match (if status.roles.is_full = true then
               s.chain_sync.new_peer who peer.info.best_hash peer.info.best_number
             else (s.chain_sync, Except.ok none)) with
      | (cs, Except.error b) =>
          (disconnect_and_report_peer { s with chain_sync := cs } b.id b.rep,
           Except.error ())
      | (cs, Except.ok req) =>
          let s1 := { s with chain_sync := cs, peers := insertKey s.peers who peer }
          let s2 :=
            if no_slot_peer then
              { s1 with default_peers_set_no_slot_connected_peers :=
                  setInsert who s1.default_peers_set_no_slot_connected_peers }
            else s1
          match req with
          | some r =>
              let pr := prepare_block_request s2 who r
              (pr.1, Except.ok (some pr.2))
          | none => (s2, Except.ok none)

/-- on_sync_peer_disconnected: remove the peer from the Peer Table, tell the
collaborator, remove from the no-slot-connected set. -/
def on_sync_peer_disconnected (s : SyncingHelper) (peer : PeerId) :
    SyncingHelper × Except Unit (Option CustomMessageOutcome) :=
  if containsKey s.peers peer = true then
    let s1 := { s with peers := eraseKey s.peers peer }
    let pd := s1.chain_sync.peer_disconnected peer
    let msg :=
      match pd.2 with
      | some (OnBlockData.Import origin blocks) =>
          some (CustomMessageOutcome.BlockImport origin blocks)
      | _ => none
    ({ s1 with
        chain_sync := pd.1,
        default_peers_set_no_slot_connected_peers :=
          setErase peer s1.default_peers_set_no_slot_connected_peers },
     Except.ok msg)
  else
    (s, Except.error ())

/-- push_block_announce_validation: record the announced hash in the peer's
known-blocks set and, for full peers, queue the announcement for validation
by the collaborator.  An unknown peer trips a debug assertion and the call is
a no-op. -/
def push_block_announce_validation (s : SyncingHelper) (who : PeerId)
    (announce : BlockAnnounce) : SyncingHelper :=
  let hash := announce.header_hash
  match lookupKey s.peers who with
  | none => fatal_assert_hit s
  | some peer =>
      let peer1 :=
        { peer with known_blocks := lruInsert MAX_KNOWN_BLOCKS hash peer.known_blocks }
      let s1 := { s with peers := updateKey s.peers who peer1 }
      let is_best :=
        match announce.state.getD BlockState.Best with
        | BlockState.Best => true
        | BlockState.Normal => false
      if peer1.info.roles.is_full = true then
        { s1 with chain_sync := s1.chain_sync.push_validation who hash is_best }
      else s1

/-- notification: deliver a raw notification payload.  The decode of the
bytes into a BlockAnnounce is the codec capability, passed as a function. -/
def notification (dec : List Nat → Option BlockAnnounce) (s : SyncingHelper)
    (peer : PeerId) (message : List Nat) : SyncingHelper × CustomMessageOutcome :=
  if containsKey s.peers peer = true then
    match dec message with
    | some announce =>
        (push_block_announce_validation s peer announce, CustomMessageOutcome.None)
    | none => (s, CustomMessageOutcome.None)
  else
    (s, CustomMessageOutcome.None)

/-- custom_protocol_close. -/
def custom_protocol_close (s : SyncingHelper) (peer : PeerId) :
    SyncingHelper × CustomMessageOutcome :=
  match on_sync_peer_disconnected s peer with
  | (s1, Except.ok _) => (s1, CustomMessageOutcome.SyncDisconnected peer)
  | (s1, Except.error _) => (s1, CustomMessageOutcome.None)

/-- How the received handshake bytes decode: as a Status message, as some
other Message, as a raw BlockAnnouncesHandshake fallback, or not at all. -/
inductive HandshakeDecode where
  | statusMsg (h : BlockAnnouncesHandshake)
  | otherMsg
  | rawHandshake (h : BlockAnnouncesHandshake)
  | failed
deriving DecidableEq

/-- custom_protocol_open: decode the handshake (decode capability passed as a
function) and run admission; a non-Status message or an undecodable
handshake is reported as a bad message. -/
def custom_protocol_open (dec : List Nat → HandshakeDecode) (s : SyncingHelper)
    (peer_id : PeerId) (received_handshake : List Nat) :
    SyncingHelper × List CustomMessageOutcome :=
  match dec received_handshake with
  | HandshakeDecode.statusMsg h =>
      (match on_sync_peer_connected s peer_id h with
       | (s1, Except.ok (some inner)) =>
           (s1, [inner, CustomMessageOutcome.SyncConnected peer_id])
       | (s1, Except.ok none) => (s1, [CustomMessageOutcome.SyncConnected peer_id])
       | (s1, Except.error _) => (s1, [CustomMessageOutcome.None]))
  | HandshakeDecode.rawHandshake h =>
      (match on_sync_peer_connected s peer_id h with
       | (s1, Except.ok (some inner)) =>
           (s1, [inner, CustomMessageOutcome.SyncConnected peer_id])
       | (s1, Except.ok none) => (s1, [CustomMessageOutcome.SyncConnected peer_id])
       | (s1, Except.error _) => (s1, [CustomMessageOutcome.None]))
  | HandshakeDecode.otherMsg =>
      (report_peer s peer_id Rep.BAD_MESSAGE, [CustomMessageOutcome.None])
  | HandshakeDecode.failed =>
      (report_peer s peer_id Rep.BAD_MESSAGE, [CustomMessageOutcome.None])

/-- on_block_response: convert the opaque response into blocks (failure is a
bad message, reported without disconnecting), then route to the
justification or block-data entry point of the collaborator. -/
def on_block_response (s : SyncingHelper) (peer_id : PeerId)
    (request : BlockRequest) (response : Nat) :
    SyncingHelper × CustomMessageOutcome :=
  match s.chain_sync.blockResponseIntoBlocksResult request response with
  | Except.error _ => (report_peer s peer_id Rep.BAD_MESSAGE, CustomMessageOutcome.None)
  | Except.ok blocks =>
      let block_response : BlockResponse := { id := request.id, blocks := blocks }
      if request.fields = justificationAttribute then
        match s.chain_sync.onBlockJustificationResult peer_id block_response with
        | Except.ok OnBlockJustification.Nothing => (s, CustomMessageOutcome.None)
        | Except.ok (OnBlockJustification.Import peer hash number justifications) =>
            (s, CustomMessageOutcome.JustificationImport peer hash number justifications)
        | Except.error b =>
            (disconnect_and_report_peer s b.id b.rep, CustomMessageOutcome.None)
      else
        match s.chain_sync.onBlockDataResult peer_id (some request) block_response with
        | Except.ok (OnBlockData.Import origin blocks1) =>
            (s, CustomMessageOutcome.BlockImport origin blocks1)
        | Except.ok (OnBlockData.Request peer req) => prepare_block_request s peer req
        | Except.ok OnBlockData.Continue => (s, CustomMessageOutcome.None)
        | Except.error b =>
            (disconnect_and_report_peer s b.id b.rep, CustomMessageOutcome.None)

/-- on_state_response. -/
def on_state_response (s : SyncingHelper) (peer_id : PeerId) (response : Nat) :
    SyncingHelper × CustomMessageOutcome :=
  match s.chain_sync.onStateDataResult peer_id response with
  | Except.ok (OnStateData.Import origin block) =>
      (s, CustomMessageOutcome.BlockImport origin [block])
  | Except.ok OnStateData.Continue => (s, CustomMessageOutcome.None)
  | Except.error b =>
      (disconnect_and_report_peer s b.id b.rep, CustomMessageOutcome.None)

/-- on_warp_sync_response: the encoded proof bytes go straight to the
collaborator. -/
def on_warp_sync_response (s : SyncingHelper) (peer_id : PeerId)
    (response : List Nat) : SyncingHelper × CustomMessageOutcome :=
  match s.chain_sync.onWarpSyncDataResult peer_id response with
  | Except.ok _ => (s, CustomMessageOutcome.None)
  | Except.error b =>
      (disconnect_and_report_peer s b.id b.rep, CustomMessageOutcome.None)

/-- handle_pending_response: the completion path for one pending request.  On
a successful payload the kind-specific decoder runs (decode failure:
disconnect and report, nothing else happens); the resulting event is pushed
onto the outcome queue.  On a classified network failure or on a dropped
reply slot the deterministic failure mapping applies and no event is
produced. -/
def handle_pending_response (s : SyncingHelper) (id : PeerId)
    (request : PeerRequest)
    (response : Except Unit (Except RequestFailure (List Nat))) : SyncingHelper :=
  match response with
  | Except.ok (Except.ok resp) =>
      match request with
      | PeerRequest.Block req =>
          (match s.chain_sync.decodeBlockResponseResult resp with
           | Except.error _ => disconnect_and_report_peer s id Rep.BAD_MESSAGE
           | Except.ok proto =>
               let r := on_block_response s id req proto
               { r.1 with pending_messages := r.1.pending_messages ++ [r.2] })
      | PeerRequest.State =>
          (match s.chain_sync.decodeStateResponseResult resp with
           | Except.error _ => disconnect_and_report_peer s id Rep.BAD_MESSAGE
           | Except.ok proto =>
               let r := on_state_response s id proto
               { r.1 with pending_messages := r.1.pending_messages ++ [r.2] })
      | PeerRequest.WarpProof =>
          let r := on_warp_sync_response s id resp
          { r.1 with pending_messages := r.1.pending_messages ++ [r.2] }
  | Except.ok (Except.error err) =>
      match err with
      | RequestFailure.Network OutboundFailure.Timeout =>
          disconnect_and_report_peer s id Rep.TIMEOUT
      | RequestFailure.Network OutboundFailure.UnsupportedProtocols =>
          disconnect_and_report_peer s id Rep.BAD_PROTOCOL
      | RequestFailure.Network OutboundFailure.DialFailure => disconnect_peer s id
      | RequestFailure.Refused => disconnect_and_report_peer s id Rep.REFUSED
      | RequestFailure.Network OutboundFailure.ConnectionClosed => disconnect_peer s id
      | RequestFailure.NotConnected => disconnect_peer s id
      | RequestFailure.UnknownProtocol => fatal_assert_hit s
      | RequestFailure.Obsolete => fatal_assert_hit s
  | Except.error _ => disconnect_peer s id

/-- on_blocks_processed: each collaborator result becomes either a fresh
block request or a disconnect-and-report. -/
def on_blocks_processed (s : SyncingHelper) :
    SyncingHelper × List CustomMessageOutcome :=
  s.chain_sync.onBlocksProcessedResult.foldl
    (fun acc r =>
      match r with
      | Except.ok (id, req) =>
          let pr := prepare_block_request acc.1 id req
          (pr.1, acc.2 ++ [pr.2])
      | Except.error b => (disconnect_and_report_peer acc.1 b.id b.rep, acc.2))
    (s, [])

/-- The dispatch-tick arm of the reactor loop: drain the collaborator's due
block requests, the optional state request, the due justification requests
and the optional warp-sync request, pushing each prepared outcome event. -/
def dispatch_tick (s : SyncingHelper) : SyncingHelper :=
  let s1 := s.chain_sync.blockRequestsDue.foldl
    (fun acc p =>
      let pr := prepare_block_request acc p.1 p.2
      { pr.1 with pending_messages := pr.1.pending_messages ++ [pr.2] }) s
  let s2 :=
    match s1.chain_sync.stateRequestDue with
    | some (id, request) =>
        let pr := prepare_state_request s1 id request
        { pr.1 with pending_messages := pr.1.pending_messages ++ [pr.2] }
    | none => s1
  let s3 := s2.chain_sync.justificationRequestsDue.foldl
    (fun acc p =>
      let pr := prepare_block_request acc p.1 p.2
      { pr.1 with pending_messages := pr.1.pending_messages ++ [pr.2] }) s2
  match s3.chain_sync.warpSyncRequestDue with
  | some (id, request) =>
      let pr := prepare_warp_sync_request s3 id request
      { pr.1 with pending_messages := pr.1.pending_messages ++ [pr.2] }
  | none => s3

/-- A collaborator instance with neutral oracles, used for concrete runs. -/
def oracleBase : ChainSyncState :=
  { reg := []
    newPeerResult := fun _ _ _ => Except.ok none
    peerDisconnectedResult := fun _ => none
    decodeBlockResponseResult := fun _ => Except.ok 0
    decodeStateResponseResult := fun _ => Except.ok 0
    blockResponseIntoBlocksResult := fun _ _ => Except.ok []
    onBlockDataResult := fun _ _ _ => Except.ok OnBlockData.Continue
    onBlockJustificationResult := fun _ _ => Except.ok OnBlockJustification.Nothing
    onStateDataResult := fun _ _ => Except.ok OnStateData.Continue
    onWarpSyncDataResult := fun _ _ => Except.ok ()
    onBlocksProcessedResult := []
    blockRequestsDue := []
    stateRequestDue := none
    justificationRequestsDue := []
    warpSyncRequestDue := none
    createOpaqueBlockRequest := fun _ => 0
    pendingValidations := [] }

/-- A freshly constructed orchestrator: full local role, one full slot, two
light slots, genesis hash 0, nothing connected. -/
def helperBase : SyncingHelper :=
  { chain_sync := oracleBase
    genesis_hash := 0
    chain_best_number := 0
    peers := []
    roles := Roles.full
    default_peers_set_num_full := 1
    default_peers_set_no_slot_peers := []
    default_peers_set_no_slot_connected_peers := []
    default_peers_set_num_light := 2
    block_announce_data_cache := []
    pending_responses := []
    pending_messages := []
    next_slot := 0
    actions := [] }

/-- A light-role handshake matching genesis hash 0. -/
def lightHandshake : BlockAnnouncesHandshake :=
  { roles := Roles.light, best_number := 0, best_hash := 0, genesis_hash := 0 }

/-- A full-role handshake matching genesis hash 0. -/
def fullHandshake : BlockAnnouncesHandshake :=
  { roles := Roles.full, best_number := 0, best_hash := 0, genesis_hash := 0 }

def c1State : SyncingHelper :=
  { helperBase with
      default_peers_set_no_slot_peers := [10], default_peers_set_num_light := 1 }

def c1Step1 : SyncingHelper := (on_sync_peer_connected c1State 10 lightHandshake).1
def c1Step2 : SyncingHelper := (on_sync_peer_connected c1Step1 20 fullHandshake).1
def c1Step3 : SyncingHelper := (on_sync_peer_connected c1Step2 30 fullHandshake).1
def c1Step4 : SyncingHelper := (on_sync_peer_disconnected c1Step3 10).1

/-- C1: counterexample to the claimed invariant over sequences that include
disconnections.  Budgets: one full slot, one light slot; peer 10 is a no-slot
peer.  Light no-slot peer 10 connects, then full peers 20 and 30 are both
admitted (the connected no-slot peer widens the effective full budget to 2);
when peer 10 disconnects, the Peer Table still holds 2 full-role peers but
the configured full budget plus the connected no-slot count is 1. -/
theorem c1_counterexample :
    (on_sync_peer_connected c1State 10 lightHandshake).2 = Except.ok none ∧
    (on_sync_peer_connected c1Step1 20 fullHandshake).2 = Except.ok none ∧
    (on_sync_peer_connected c1Step2 30 fullHandshake).2 = Except.ok none ∧
    (on_sync_peer_disconnected c1Step3 10).2 = Except.ok none ∧
    countFull c1Step4.peers = 2 ∧
    c1Step4.default_peers_set_num_full +
      c1Step4.default_peers_set_no_slot_connected_peers.length = 1 :=
  ⟨rfl, rfl, rfl, rfl, rfl, rfl⟩

/-- C10: for every peer and every raw notification payload — unknown peer,
undecodable payload, or a successfully decoded and queued announcement — the
notification operation returns CustomMessageOutcome.None. -/
theorem c10_notification_always_none (dec : List Nat → Option BlockAnnounce)
    (s : SyncingHelper) (peer : PeerId) (message : List Nat) :
    (notification dec s peer message).2 = CustomMessageOutcome.None := by
  unfold notification
  split
  · split <;> rfl
  · rfl

/-- The orchestrator state after a pending request completes with the given
classified network failure. -/
def afterFailure (s : SyncingHelper) (id : PeerId) (request : PeerRequest)
    (f : RequestFailure) : SyncingHelper :=
  handle_pending_response s id request (Except.ok (Except.error f))

/-- The orchestrator state after a pending request's reply slot is dropped
without a value (oneshot cancellation). -/
def afterCancel (s : SyncingHelper) (id : PeerId) (request : PeerRequest) :
    SyncingHelper :=
  handle_pending_response s id request (Except.error ())

/-- C2: for every completed request resolving with a network failure,
handle_pending_response applies exactly the deterministic mapping — timeout:
disconnect + timeout penalty; unsupported protocol: disconnect + bad-protocol
penalty; dial failure: disconnect only; refused: disconnect + refused
penalty; connection closed / not connected: disconnect only; dropped reply
slot: disconnect only; unknown-protocol and obsolete: a fatal assertion — and
in every failure case no retry is issued: the pending set and the outcome
queue are untouched. -/
theorem c2_failure_classification (s : SyncingHelper) (id : PeerId)
    (request : PeerRequest) :
    (afterFailure s id request (RequestFailure.Network OutboundFailure.Timeout)).actions
        = s.actions ++ [Action.disconnect id, Action.report id Rep.TIMEOUT] ∧
    (afterFailure s id request (RequestFailure.Network OutboundFailure.UnsupportedProtocols)).actions
        = s.actions ++ [Action.disconnect id, Action.report id Rep.BAD_PROTOCOL] ∧
    (afterFailure s id request (RequestFailure.Network OutboundFailure.DialFailure)).actions
        = s.actions ++ [Action.disconnect id] ∧
    (afterFailure s id request RequestFailure.Refused).actions
        = s.actions ++ [Action.disconnect id, Action.report id Rep.REFUSED] ∧
    (afterFailure s id request (RequestFailure.Network OutboundFailure.ConnectionClosed)).actions
        = s.actions ++ [Action.disconnect id] ∧
    (afterFailure s id request RequestFailure.NotConnected).actions
        = s.actions ++ [Action.disconnect id] ∧
    (afterFailure s id request RequestFailure.UnknownProtocol).actions
        = s.actions ++ [Action.fatalAssert] ∧
    (afterFailure s id request RequestFailure.Obsolete).actions
        = s.actions ++ [Action.fatalAssert] ∧
    (afterCancel s id request).actions = s.actions ++ [Action.disconnect id] ∧
    (∀ f : RequestFailure,
      (afterFailure s id request f).pending_messages = s.pending_messages ∧
      (afterFailure s id request f).pending_responses = s.pending_responses) ∧
    (afterCancel s id request).pending_messages = s.pending_messages ∧
    (afterCancel s id request).pending_responses = s.pending_responses := by
  refine ⟨?_, ?_, ?_, ?_, ?_, ?_, ?_, ?_, ?_, ?_, ?_, ?_⟩
  all_goals
    first
    | (intro f
       cases f with
       | Network g => cases g <;>
           simp [afterFailure, handle_pending_response, disconnect_and_report_peer,
             disconnect_peer, report_peer, fatal_assert_hit]
       | _ =>
           simp [afterFailure, handle_pending_response, disconnect_and_report_peer,
             disconnect_peer, report_peer, fatal_assert_hit])
    | simp [afterFailure, afterCancel, handle_pending_response,
        disconnect_and_report_peer, disconnect_peer, report_peer, fatal_assert_hit]

/-- The base orchestrator with the local role light (light budget still 2). -/
def c5LightLocal : SyncingHelper := { helperBase with roles := Roles.light }

/-- C5: counterexample — with the local role light, the very first light peer
to handshake is rejected with disconnect plus a bad-role penalty, so the
claimed scenario (first two of three light peers admitted) fails already at
its first step. -/
theorem c5_counterexample :
    (on_sync_peer_connected c5LightLocal 1 lightHandshake).2 = Except.error () ∧
    (on_sync_peer_connected c5LightLocal 1 lightHandshake).1.actions =
      [Action.disconnect 1, Action.report 1 Rep.BAD_ROLE] ∧
    (on_sync_peer_connected c5LightLocal 1 lightHandshake).1.peers = [] :=
  ⟨rfl, rfl, rfl⟩

def c5Step1 : SyncingHelper × Except Unit (Option CustomMessageOutcome) :=
  on_sync_peer_connected helperBase 1 lightHandshake

def c5Step2 : SyncingHelper × Except Unit (Option CustomMessageOutcome) :=
  on_sync_peer_connected c5Step1.1 2 lightHandshake

def c5Step3 : SyncingHelper × Except Unit (Option CustomMessageOutcome) :=
  on_sync_peer_connected c5Step2.1 3 lightHandshake

/-- C5 (amended): with the local role full and a light budget of 2, three
light peers with matching genesis handshake in sequence: the first two are
admitted into the Peer Table and the third is rejected with a disconnect
only (no penalty). -/
theorem c5_amended_three_light_peers :
    c5Step1.2 = Except.ok none ∧
    c5Step2.2 = Except.ok none ∧
    containsKey c5Step2.1.peers 1 = true ∧
    containsKey c5Step2.1.peers 2 = true ∧
    c5Step3.2 = Except.error () ∧
    containsKey c5Step3.1.peers 3 = false ∧
    c5Step3.1.actions = [Action.disconnect 3] :=
  ⟨rfl, rfl, rfl, rfl, rfl, rfl, rfl⟩

/-- C4: a peer presenting a handshake whose genesis hash differs from the
local genesis (and not already in the Peer Table) is rejected: the outcome is
disconnect plus the genesis-mismatch penalty, and the Peer Table and the
no-slot-connected set are unchanged by the call. -/
theorem c4_genesis_mismatch (s : SyncingHelper) (who : PeerId)
    (status : BlockAnnouncesHandshake)
    (hnc : lookupKey s.peers who = none)
    (hg : status.genesis_hash ≠ s.genesis_hash) :
    (on_sync_peer_connected s who status).2 = Except.error () ∧
    (on_sync_peer_connected s who status).1.peers = s.peers ∧
    (on_sync_peer_connected s who status).1.default_peers_set_no_slot_connected_peers
        = s.default_peers_set_no_slot_connected_peers ∧
    (on_sync_peer_connected s who status).1.actions =
      s.actions ++ [Action.disconnect who, Action.report who Rep.GENESIS_MISMATCH] := by
  unfold on_sync_peer_connected
  simp [containsKey, hnc, hg, disconnect_and_report_peer, disconnect_peer, report_peer]

/-- A full-role handshake claiming a different genesis hash. -/
def c4Handshake : BlockAnnouncesHandshake :=
  { roles := Roles.full, best_number := 0, best_hash := 0, genesis_hash := 5 }

/-- C4 witness: the theorem applied to the base orchestrator and peer 1
handshaking with genesis hash 5 against local genesis 0. -/
theorem c4_witness :
    lookupKey helperBase.peers 1 = none ∧
    c4Handshake.genesis_hash ≠ helperBase.genesis_hash ∧
    (on_sync_peer_connected helperBase 1 c4Handshake).2 = Except.error () ∧
    (on_sync_peer_connected helperBase 1 c4Handshake).1.peers = helperBase.peers ∧
    (on_sync_peer_connected helperBase 1 c4Handshake).1.default_peers_set_no_slot_connected_peers
        = helperBase.default_peers_set_no_slot_connected_peers ∧
    (on_sync_peer_connected helperBase 1 c4Handshake).1.actions =
      helperBase.actions ++ [Action.disconnect 1, Action.report 1 Rep.GENESIS_MISMATCH] := by
  have h := c4_genesis_mismatch helperBase 1 c4Handshake rfl (by decide)
  exact ⟨rfl, by decide, h.1, h.2.1, h.2.2.1, h.2.2.2⟩

/-- C8: for a light-role peer not already connected, with matching genesis
and the local role full, admission is rejected exactly when the connected
count minus the chain-sync tracked count is at least the configured light
budget, and the rejection is a disconnect only (no penalty).  The hypothesis
that the tracked count does not exceed the connected count keeps the natural
subtraction in the model aligned with the usize subtraction in the source. -/
theorem c8_light_budget_exact (s : SyncingHelper) (who : PeerId)
    (status : BlockAnnouncesHandshake)
    (hnc : lookupKey s.peers who = none)
    (hg : status.genesis_hash = s.genesis_hash)
    (hrole : status.roles = Roles.light)
    (hlocal : s.roles = Roles.full)
    (hle : s.chain_sync.num_peers ≤ s.peers.length) :
    ((on_sync_peer_connected s who status).2 = Except.error () ↔
      s.peers.length - s.chain_sync.num_peers ≥ s.default_peers_set_num_light) ∧
    (s.peers.length - s.chain_sync.num_peers ≥ s.default_peers_set_num_light →
      (on_sync_peer_connected s who status).1.actions =
        s.actions ++ [Action.disconnect who]) := by
  by_cases hbudget :
      s.peers.length - s.chain_sync.num_peers ≥ s.default_peers_set_num_light
  · unfold on_sync_peer_connected
    simp [containsKey, hnc, hg, hrole, hlocal, hbudget, disconnect_peer]
  · unfold on_sync_peer_connected
    simp [containsKey, hnc, hg, hrole, hlocal, hbudget, disconnect_peer]

/-- C8 witness: the theorem applied after the two light peers 1 and 2 are
connected against a light budget of 2; peer 3's rejection condition holds and
the rejection is a bare disconnect. -/
theorem c8_witness :
    lookupKey c5Step2.1.peers 3 = none ∧
    lightHandshake.genesis_hash = c5Step2.1.genesis_hash ∧
    lightHandshake.roles = Roles.light ∧
    c5Step2.1.roles = Roles.full ∧
    c5Step2.1.chain_sync.num_peers ≤ c5Step2.1.peers.length ∧
    (((on_sync_peer_connected c5Step2.1 3 lightHandshake).2 = Except.error ()) ↔
      c5Step2.1.peers.length - c5Step2.1.chain_sync.num_peers ≥
        c5Step2.1.default_peers_set_num_light) ∧
    (c5Step2.1.peers.length - c5Step2.1.chain_sync.num_peers ≥
        c5Step2.1.default_peers_set_num_light →
      (on_sync_peer_connected c5Step2.1 3 lightHandshake).1.actions =
        c5Step2.1.actions ++ [Action.disconnect 3]) := by
  have h := c8_light_budget_exact c5Step2.1 3 lightHandshake rfl rfl rfl rfl (by decide)
  exact ⟨rfl, rfl, rfl, rfl, by decide, h.1, h.2⟩

/-- C7: a full-role peer whose admission passes the compatibility and budget
checks but is rejected by the collaborator's new_peer with a BadPeer: the
admission is treated as a rejection — the peer ends up in neither the Peer
Table nor the no-slot-connected set, and is disconnected and reported with
the returned reputation. -/
theorem c7_new_peer_badpeer (s : SyncingHelper) (who : PeerId)
    (status : BlockAnnouncesHandshake) (b : BadPeer)
    (hnc : lookupKey s.peers who = none)
    (hg : status.genesis_hash = s.genesis_hash)
    (hrole : status.roles = Roles.full)
    (hbehind : s.roles.is_light = true →
      s.chain_best_number - status.best_number ≤ LIGHT_MAXIMAL_BLOCKS_DIFFERENCE)
    (hbudget : s.chain_sync.num_peers <
      s.default_peers_set_num_full +
        s.default_peers_set_no_slot_connected_peers.length +
        (if who ∈ s.default_peers_set_no_slot_peers then 1 else 0))
    (hbp : s.chain_sync.newPeerResult who status.best_hash status.best_number
        = Except.error b)
    (hbid : b.id = who)
    (hnos : who ∉ s.default_peers_set_no_slot_connected_peers) :
    (on_sync_peer_connected s who status).2 = Except.error () ∧
    (on_sync_peer_connected s who status).1.peers = s.peers ∧
    containsKey (on_sync_peer_connected s who status).1.peers who = false ∧
    (on_sync_peer_connected s who status).1.default_peers_set_no_slot_connected_peers
        = s.default_peers_set_no_slot_connected_peers ∧
    who ∉ (on_sync_peer_connected s who status).1.default_peers_set_no_slot_connected_peers ∧
    (on_sync_peer_connected s who status).1.actions =
      s.actions ++ [Action.disconnect who, Action.report who b.rep] := by
  have hb2 : ¬(s.roles.is_light = true ∧
      s.chain_best_number - status.best_number > LIGHT_MAXIMAL_BLOCKS_DIFFERENCE) := by
    rintro ⟨h1, h2⟩
    exact absurd h2 (not_lt.mpr (hbehind h1))
  have hfb : ¬(s.default_peers_set_num_full +
        s.default_peers_set_no_slot_connected_peers.length +
        (if who ∈ s.default_peers_set_no_slot_peers then 1 else 0) ≤
      s.chain_sync.num_peers) := not_le.mpr hbudget
  unfold on_sync_peer_connected
  simp [containsKey, hnc, hg, hrole, hb2, hfb, ChainSyncState.new_peer, hbp, hbid, hnos,
    disconnect_and_report_peer, disconnect_peer, report_peer]

/-- A collaborator that rejects every new peer with a BadPeer carrying the
peer's own id. -/
def c7Oracle : ChainSyncState :=
  { oracleBase with newPeerResult := fun p _ _ => Except.error ⟨p, Rep.arbitrary 7⟩ }

def c7State : SyncingHelper := { helperBase with chain_sync := c7Oracle }

/-- C7 witness: the theorem applied to a collaborator rejecting full peer 1
with reputation `arbitrary 7`. -/
theorem c7_witness :
    lookupKey c7State.peers 1 = none ∧
    fullHandshake.genesis_hash = c7State.genesis_hash ∧
    fullHandshake.roles = Roles.full ∧
    (c7State.roles.is_light = true →
      c7State.chain_best_number - fullHandshake.best_number ≤
        LIGHT_MAXIMAL_BLOCKS_DIFFERENCE) ∧
    c7State.chain_sync.num_peers <
      c7State.default_peers_set_num_full +
        c7State.default_peers_set_no_slot_connected_peers.length +
        (if (1 : PeerId) ∈ c7State.default_peers_set_no_slot_peers then 1 else 0) ∧
    c7State.chain_sync.newPeerResult 1 fullHandshake.best_hash fullHandshake.best_number
        = Except.error ⟨1, Rep.arbitrary 7⟩ ∧
    (on_sync_peer_connected c7State 1 fullHandshake).2 = Except.error () ∧
    (on_sync_peer_connected c7State 1 fullHandshake).1.peers = c7State.peers ∧
    containsKey (on_sync_peer_connected c7State 1 fullHandshake).1.peers 1 = false ∧
    (1 : PeerId) ∉
      (on_sync_peer_connected c7State 1 fullHandshake).1.default_peers_set_no_slot_connected_peers ∧
    (on_sync_peer_connected c7State 1 fullHandshake).1.actions =
      c7State.actions ++ [Action.disconnect 1, Action.report 1 (Rep.arbitrary 7)] := by
  have h := c7_new_peer_badpeer c7State 1 fullHandshake ⟨1, Rep.arbitrary 7⟩
    rfl rfl rfl (by decide) (by decide) rfl rfl (by decide)
  exact ⟨rfl, rfl, rfl, by decide, by decide, rfl, h.1, h.2.1, h.2.2.1, h.2.2.2.2.1,
    h.2.2.2.2.2⟩

/-- C3: a pending request of any kind whose reply resolves with a successful
byte payload that fails to decode — the kind-specific byte decoder for Block
and State, and the collaborator's warp-proof interpretation (surfacing as a
BadPeer naming the responder) for WarpProof — leads to disconnect plus
penalty for the responding peer, registers no new pending record, and pushes
no follow-up request event for that record (the warp path pushes only the
None outcome). -/
theorem c3_decode_failure (s : SyncingHelper) (id : PeerId) (req : BlockRequest)
    (resp : List Nat) (e1 e2 : Nat) (b : BadPeer)
    (hB : s.chain_sync.decodeBlockResponseResult resp = Except.error e1)
    (hS : s.chain_sync.decodeStateResponseResult resp = Except.error e2)
    (hW : s.chain_sync.onWarpSyncDataResult id resp = Except.error b)
    (hbid : b.id = id) :
    (handle_pending_response s id (PeerRequest.Block req) (Except.ok (Except.ok resp))).actions
        = s.actions ++ [Action.disconnect id, Action.report id Rep.BAD_MESSAGE] ∧
    (handle_pending_response s id (PeerRequest.Block req) (Except.ok (Except.ok resp))).pending_messages
        = s.pending_messages ∧
    (handle_pending_response s id (PeerRequest.Block req) (Except.ok (Except.ok resp))).pending_responses
        = s.pending_responses ∧
    (handle_pending_response s id PeerRequest.State (Except.ok (Except.ok resp))).actions
        = s.actions ++ [Action.disconnect id, Action.report id Rep.BAD_MESSAGE] ∧
    (handle_pending_response s id PeerRequest.State (Except.ok (Except.ok resp))).pending_messages
        = s.pending_messages ∧
    (handle_pending_response s id PeerRequest.State (Except.ok (Except.ok resp))).pending_responses
        = s.pending_responses ∧
    (handle_pending_response s id PeerRequest.WarpProof (Except.ok (Except.ok resp))).actions
        = s.actions ++ [Action.disconnect id, Action.report id b.rep] ∧
    (handle_pending_response s id PeerRequest.WarpProof (Except.ok (Except.ok resp))).pending_messages
        = s.pending_messages ++ [CustomMessageOutcome.None] ∧
    (handle_pending_response s id PeerRequest.WarpProof (Except.ok (Except.ok resp))).pending_responses
        = s.pending_responses := by
  simp [handle_pending_response, hB, hS, hW, hbid, on_warp_sync_response,
    disconnect_and_report_peer, disconnect_peer, report_peer]

/-- A collaborator whose byte decoders fail and whose warp-proof entry point
rejects the responder. -/
def c3Oracle : ChainSyncState :=
  { oracleBase with
      decodeBlockResponseResult := fun _ => Except.error 1
      decodeStateResponseResult := fun _ => Except.error 2
      onWarpSyncDataResult := fun p _ => Except.error ⟨p, Rep.arbitrary 3⟩ }

def c3State : SyncingHelper := { helperBase with chain_sync := c3Oracle }

/-- C3 witness: the theorem applied to the failing-decoder collaborator with
peer 1 and an arbitrary payload. -/
theorem c3_witness :
    c3State.chain_sync.decodeBlockResponseResult [9] = Except.error 1 ∧
    c3State.chain_sync.decodeStateResponseResult [9] = Except.error 2 ∧
    c3State.chain_sync.onWarpSyncDataResult 1 [9] = Except.error ⟨1, Rep.arbitrary 3⟩ ∧
    (handle_pending_response c3State 1 (PeerRequest.Block ⟨0, 0⟩)
        (Except.ok (Except.ok [9]))).actions
      = c3State.actions ++ [Action.disconnect 1, Action.report 1 Rep.BAD_MESSAGE] ∧
    (handle_pending_response c3State 1 PeerRequest.WarpProof
        (Except.ok (Except.ok [9]))).actions
      = c3State.actions ++ [Action.disconnect 1, Action.report 1 (Rep.arbitrary 3)] ∧
    (handle_pending_response c3State 1 PeerRequest.WarpProof
        (Except.ok (Except.ok [9]))).pending_messages
      = c3State.pending_messages ++ [CustomMessageOutcome.None] := by
  have h := c3_decode_failure c3State 1 ⟨0, 0⟩ [9] 1 2 ⟨1, Rep.arbitrary 3⟩ rfl rfl rfl rfl
  exact ⟨rfl, rfl, rfl, h.1, h.2.2.2.2.2.2.1, h.2.2.2.2.2.2.2.1⟩

/-- C6: when the tick fires with the collaborator reporting exactly two due
block requests and one due warp-sync request (no state and no justification
requests), exactly three outcome events are appended — two BlockRequest and
one WarpSyncRequest — each carrying a distinct freshly allocated reply slot,
and a matching pending record is registered for each. -/
theorem c6_dispatch_tick (s : SyncingHelper) (p1 p2 p3 : PeerId)
    (r1 r2 : BlockRequest) (r3 : Nat)
    (hb : s.chain_sync.blockRequestsDue = [(p1, r1), (p2, r2)])
    (hs : s.chain_sync.stateRequestDue = none)
    (hj : s.chain_sync.justificationRequestsDue = [])
    (hw : s.chain_sync.warpSyncRequestDue = some (p3, r3)) :
    (dispatch_tick s).pending_messages = s.pending_messages ++
      [CustomMessageOutcome.BlockRequest p1
          (s.chain_sync.createOpaqueBlockRequest r1) s.next_slot,
       CustomMessageOutcome.BlockRequest p2
          (s.chain_sync.createOpaqueBlockRequest r2) (s.next_slot + 1),
       CustomMessageOutcome.WarpSyncRequest p3 r3 (s.next_slot + 2)] ∧
    (dispatch_tick s).pending_responses = s.pending_responses ++
      [⟨p1, PeerRequest.Block r1, s.next_slot⟩,
       ⟨p2, PeerRequest.Block r2, s.next_slot + 1⟩,
       ⟨p3, PeerRequest.WarpProof, s.next_slot + 2⟩] ∧
    s.next_slot ≠ s.next_slot + 1 ∧ s.next_slot ≠ s.next_slot + 2 ∧
    s.next_slot + 1 ≠ s.next_slot + 2 := by
  refine ⟨?_, ?_, by omega, by omega, by omega⟩ <;>
    simp [dispatch_tick, hb, hs, hj, hw, prepare_block_request,
      prepare_warp_sync_request, prepare_state_request]

/-- A collaborator with two due block requests (peers 1 and 2) and one due
warp-sync request (peer 3). -/
def c6Oracle : ChainSyncState :=
  { oracleBase with
      blockRequestsDue := [(1, ⟨0, 0⟩), (2, ⟨1, 0⟩)]
      warpSyncRequestDue := some (3, 7) }

def c6State : SyncingHelper := { helperBase with chain_sync := c6Oracle }

/-- C6 witness: the theorem applied to that collaborator from the base
orchestrator state. -/
theorem c6_witness :
    c6State.chain_sync.blockRequestsDue = [(1, ⟨0, 0⟩), (2, ⟨1, 0⟩)] ∧
    c6State.chain_sync.stateRequestDue = none ∧
    c6State.chain_sync.justificationRequestsDue = [] ∧
    c6State.chain_sync.warpSyncRequestDue = some (3, 7) ∧
    (dispatch_tick c6State).pending_messages = c6State.pending_messages ++
      [CustomMessageOutcome.BlockRequest 1
          (c6State.chain_sync.createOpaqueBlockRequest ⟨0, 0⟩) c6State.next_slot,
       CustomMessageOutcome.BlockRequest 2
          (c6State.chain_sync.createOpaqueBlockRequest ⟨1, 0⟩) (c6State.next_slot + 1),
       CustomMessageOutcome.WarpSyncRequest 3 7 (c6State.next_slot + 2)] ∧
    (dispatch_tick c6State).pending_responses = c6State.pending_responses ++
      [⟨1, PeerRequest.Block ⟨0, 0⟩, c6State.next_slot⟩,
       ⟨2, PeerRequest.Block ⟨1, 0⟩, c6State.next_slot + 1⟩,
       ⟨3, PeerRequest.WarpProof, c6State.next_slot + 2⟩] := by
  have h := c6_dispatch_tick c6State 1 2 3 ⟨0, 0⟩ ⟨1, 0⟩ 7 rfl rfl rfl rfl
  exact ⟨rfl, rfl, rfl, rfl, h.1, h.2.1⟩

@[simp] theorem disconnect_peer_peers (s : SyncingHelper) (id : PeerId) :
    (disconnect_peer s id).peers = s.peers := rfl

@[simp] theorem disconnect_peer_noslot (s : SyncingHelper) (id : PeerId) :
    (disconnect_peer s id).default_peers_set_no_slot_connected_peers =
      s.default_peers_set_no_slot_connected_peers := rfl

@[simp] theorem report_peer_peers (s : SyncingHelper) (id : PeerId) (r : Rep) :
    (report_peer s id r).peers = s.peers := rfl

@[simp] theorem report_peer_noslot (s : SyncingHelper) (id : PeerId) (r : Rep) :
    (report_peer s id r).default_peers_set_no_slot_connected_peers =
      s.default_peers_set_no_slot_connected_peers := rfl

@[simp] theorem disconnect_and_report_peer_peers (s : SyncingHelper) (id : PeerId)
    (r : Rep) : (disconnect_and_report_peer s id r).peers = s.peers := rfl

@[simp] theorem disconnect_and_report_peer_noslot (s : SyncingHelper) (id : PeerId)
    (r : Rep) : (disconnect_and_report_peer s id r).default_peers_set_no_slot_connected_peers =
      s.default_peers_set_no_slot_connected_peers := rfl

@[simp] theorem fatal_assert_hit_peers (s : SyncingHelper) :
    (fatal_assert_hit s).peers = s.peers := rfl

@[simp] theorem fatal_assert_hit_noslot (s : SyncingHelper) :
    (fatal_assert_hit s).default_peers_set_no_slot_connected_peers =
      s.default_peers_set_no_slot_connected_peers := rfl

@[simp] theorem prepare_block_request_peers (s : SyncingHelper) (who : PeerId)
    (r : BlockRequest) : (prepare_block_request s who r).1.peers = s.peers := rfl

@[simp] theorem prepare_block_request_noslot (s : SyncingHelper) (who : PeerId)
    (r : BlockRequest) :
    (prepare_block_request s who r).1.default_peers_set_no_slot_connected_peers =
      s.default_peers_set_no_slot_connected_peers := rfl

@[simp] theorem prepare_state_request_peers (s : SyncingHelper) (who : PeerId)
    (r : Nat) : (prepare_state_request s who r).1.peers = s.peers := rfl

@[simp] theorem prepare_state_request_noslot (s : SyncingHelper) (who : PeerId)
    (r : Nat) :
    (prepare_state_request s who r).1.default_peers_set_no_slot_connected_peers =
      s.default_peers_set_no_slot_connected_peers := rfl

@[simp] theorem prepare_warp_sync_request_peers (s : SyncingHelper) (who : PeerId)
    (r : Nat) : (prepare_warp_sync_request s who r).1.peers = s.peers := rfl

@[simp] theorem prepare_warp_sync_request_noslot (s : SyncingHelper) (who : PeerId)
    (r : Nat) :
    (prepare_warp_sync_request s who r).1.default_peers_set_no_slot_connected_peers =
      s.default_peers_set_no_slot_connected_peers := rfl

theorem lookupKey_none_not_mem (l : List (PeerId × Peer)) (k : PeerId)
    (h : lookupKey l k = none) : k ∉ peerTableKeys l := by
  induction l with
  | nil => simp [peerTableKeys]
  | cons kv t ih =>
      by_cases hk : kv.1 = k
      · rw [lookupKey, if_pos hk] at h
        exact absurd h (by simp)
      · rw [lookupKey, if_neg hk] at h
        have ht := ih h
        intro hmem
        rcases List.mem_cons.mp hmem with h1 | h1
        · exact hk h1.symm
        · exact ht h1

theorem eraseKey_of_lookup_none (l : List (PeerId × Peer)) (k : PeerId)
    (h : lookupKey l k = none) : eraseKey l k = l := by
  induction l with
  | nil => rfl
  | cons kv t ih =>
      by_cases hk : kv.1 = k
      · rw [lookupKey, if_pos hk] at h
        exact absurd h (by simp)
      · rw [lookupKey, if_neg hk] at h
        have hb : (kv.1 != k) = true := by simpa using hk
        show List.filter (fun kv => kv.1 != k) (kv :: t) = kv :: t
        rw [List.filter_cons]
        simp only [hb, if_true]
        exact congrArg (List.cons kv) (ih h)

theorem peerTableKeys_eraseKey (l : List (PeerId × Peer)) (k : PeerId) :
    peerTableKeys (eraseKey l k) = (peerTableKeys l).filter (fun y => y != k) := by
  induction l with
  | nil => rfl
  | cons kv t ih =>
      show peerTableKeys (List.filter (fun kv => kv.1 != k) (kv :: t)) =
        List.filter (fun y => y != k) (kv.1 :: peerTableKeys t)
      rw [List.filter_cons, List.filter_cons]
      by_cases hk : kv.1 = k
      · have hb : (kv.1 != k) = false := by simpa using hk
        simp only [hb, Bool.false_eq_true, if_false]
        exact ih
      · have hb : (kv.1 != k) = true := by simpa using hk
        simp only [hb, if_true]
        show kv.1 :: peerTableKeys (eraseKey t k) =
          kv.1 :: List.filter (fun y => y != k) (peerTableKeys t)
        rw [ih]

theorem peerTableKeys_updateKey (l : List (PeerId × Peer)) (k : PeerId) (v : Peer) :
    peerTableKeys (updateKey l k v) = peerTableKeys l := by
  induction l with
  | nil => rfl
  | cons kv t ih =>
      by_cases hk : kv.1 = k
      · show (if kv.1 = k then (kv.1, v) else kv).1 :: peerTableKeys (updateKey t k v) =
          kv.1 :: peerTableKeys t
        rw [if_pos hk, ih]
      · show (if kv.1 = k then (kv.1, v) else kv).1 :: peerTableKeys (updateKey t k v) =
          kv.1 :: peerTableKeys t
        rw [if_neg hk, ih]

theorem mem_peerTableKeys_insertKey (l : List (PeerId × Peer)) (k : PeerId)
    (v : Peer) (y : PeerId) :
    y ∈ peerTableKeys (insertKey l k v) ↔ y = k ∨ (y ∈ peerTableKeys l ∧ y ≠ k) := by
  show y ∈ (k, v).1 :: peerTableKeys (eraseKey l k) ↔ _
  rw [List.mem_cons, peerTableKeys_eraseKey, List.mem_filter]
  simp

theorem nodup_peerTableKeys_insertKey (l : List (PeerId × Peer)) (k : PeerId)
    (v : Peer) (h : (peerTableKeys l).Nodup) :
    (peerTableKeys (insertKey l k v)).Nodup := by
  show ((k, v).1 :: peerTableKeys (eraseKey l k)).Nodup
  rw [peerTableKeys_eraseKey]
  refine List.Nodup.cons ?_ (h.filter _)
  intro hmem
  rw [List.mem_filter] at hmem
  simp at hmem

theorem mem_setInsert (x y : PeerId) (l : List PeerId) :
    y ∈ setInsert x l ↔ y = x ∨ y ∈ l := by
  unfold setInsert
  split
  · rename_i hx
    constructor
    · exact fun h => Or.inr h
    · rintro (rfl | h)
      · assumption
      · assumption
  · simp

theorem mem_setErase (x y : PeerId) (l : List PeerId) :
    y ∈ setErase x l ↔ y ∈ l ∧ y ≠ x := by
  simp [setErase, List.mem_filter]

theorem not_mem_setErase_self (x : PeerId) (l : List PeerId) :
    x ∉ setErase x l := by
  simp [mem_setErase]

/-- The Peer Table invariants: duplicate-free keys, and the
no-slot-connected set a subset of the table's keys. -/
def TableInv (s : SyncingHelper) : Prop :=
  (peerTableKeys s.peers).Nodup ∧
  ∀ p ∈ s.default_peers_set_no_slot_connected_peers, p ∈ peerTableKeys s.peers

theorem tableInv_of_fields {s t : SyncingHelper}
    (hp : t.peers = s.peers)
    (hn : t.default_peers_set_no_slot_connected_peers =
      s.default_peers_set_no_slot_connected_peers)
    (h : TableInv s) : TableInv t := by
  unfold TableInv at h ⊢
  rw [hp, hn]
  exact h

theorem mem_insertKey_of_mem (l : List (PeerId × Peer)) (k : PeerId) (v : Peer)
    (y : PeerId) (h : y ∈ peerTableKeys l) : y ∈ peerTableKeys (insertKey l k v) := by
  rcases eq_or_ne y k with rfl | hne
  · exact (mem_peerTableKeys_insertKey _ _ _ _).mpr (Or.inl rfl)
  · exact (mem_peerTableKeys_insertKey _ _ _ _).mpr (Or.inr ⟨h, hne⟩)

theorem tableInv_accept_ns (s : SyncingHelper) (hInv : TableInv s) (who : PeerId)
    (peer : Peer) (t : SyncingHelper)
    (hp : t.peers = insertKey s.peers who peer)
    (hns : t.default_peers_set_no_slot_connected_peers =
        setInsert who s.default_peers_set_no_slot_connected_peers ∨
      t.default_peers_set_no_slot_connected_peers =
        s.default_peers_set_no_slot_connected_peers) :
    TableInv t := by
  unfold TableInv
  rw [hp]
  refine ⟨nodup_peerTableKeys_insertKey _ _ _ hInv.1, ?_⟩
  rcases hns with h | h <;> rw [h]
  · intro p hp2
    rcases (mem_setInsert _ _ _).mp hp2 with rfl | hp3
    · exact (mem_peerTableKeys_insertKey _ _ _ _).mpr (Or.inl rfl)
    · exact mem_insertKey_of_mem _ _ _ _ (hInv.2 p hp3)
  · intro p hp2
    exact mem_insertKey_of_mem _ _ _ _ (hInv.2 p hp2)

theorem tableInv_connect (s : SyncingHelper) (hInv : TableInv s) (who : PeerId)
    (status : BlockAnnouncesHandshake) :
    TableInv (on_sync_peer_connected s who status).1 := by
  simp only [on_sync_peer_connected]
  split_ifs with h1 h2 h3 h4 h5 h6
  all_goals simp only [ChainSyncState.new_peer]
  all_goals
    cases hr : s.chain_sync.newPeerResult who status.best_hash status.best_number with
    | error b =>
        try simp only [hr]
        first
        | exact @tableInv_of_fields s _ rfl rfl hInv
        | exact tableInv_accept_ns s hInv who _ _ rfl (Or.inl rfl)
        | exact tableInv_accept_ns s hInv who _ _ rfl (Or.inr rfl)
    | ok req =>
        try simp only [hr]
        cases req with
        | none =>
            first
            | exact @tableInv_of_fields s _ rfl rfl hInv
            | exact tableInv_accept_ns s hInv who _ _ rfl (Or.inl rfl)
            | exact tableInv_accept_ns s hInv who _ _ rfl (Or.inr rfl)
        | some r =>
            first
            | exact @tableInv_of_fields s _ rfl rfl hInv
            | exact tableInv_accept_ns s hInv who _ _ rfl (Or.inl rfl)
            | exact tableInv_accept_ns s hInv who _ _ rfl (Or.inr rfl)

/-- Two orchestrator states with identical Peer Table and no-slot-connected
set. -/
def SameTable (s t : SyncingHelper) : Prop :=
  t.peers = s.peers ∧
  t.default_peers_set_no_slot_connected_peers =
    s.default_peers_set_no_slot_connected_peers

theorem sameTable_refl (s : SyncingHelper) : SameTable s s := ⟨rfl, rfl⟩

theorem sameTable_trans {s t u : SyncingHelper} (h1 : SameTable s t)
    (h2 : SameTable t u) : SameTable s u :=
  ⟨h2.1.trans h1.1, h2.2.trans h1.2⟩

theorem tableInv_of_sameTable {s t : SyncingHelper} (h : SameTable s t)
    (hInv : TableInv s) : TableInv t :=
  tableInv_of_fields h.1 h.2 hInv

theorem sameTable_on_block_response (s : SyncingHelper) (id : PeerId)
    (req : BlockRequest) (resp : Nat) :
    SameTable s (on_block_response s id req resp).1 := by
  unfold on_block_response
  split
  · exact ⟨rfl, rfl⟩
  · split_ifs with h
    · dsimp only
      split <;> exact ⟨rfl, rfl⟩
    · dsimp only
      split <;> exact ⟨rfl, rfl⟩

theorem sameTable_on_state_response (s : SyncingHelper) (id : PeerId)
    (resp : Nat) : SameTable s (on_state_response s id resp).1 := by
  unfold on_state_response
  split <;> exact ⟨rfl, rfl⟩

theorem sameTable_on_warp_sync_response (s : SyncingHelper) (id : PeerId)
    (resp : List Nat) : SameTable s (on_warp_sync_response s id resp).1 := by
  unfold on_warp_sync_response
  split <;> exact ⟨rfl, rfl⟩

theorem sameTable_handle_pending_response (s : SyncingHelper) (id : PeerId)
    (request : PeerRequest)
    (response : Except Unit (Except RequestFailure (List Nat))) :
    SameTable s (handle_pending_response s id request response) := by
  unfold handle_pending_response
  rcases response with u | r
  · exact ⟨rfl, rfl⟩
  · rcases r with err | resp
    · cases err with
      | Network f => cases f <;> exact ⟨rfl, rfl⟩
      | NotConnected => exact ⟨rfl, rfl⟩
      | UnknownProtocol => exact ⟨rfl, rfl⟩
      | Refused => exact ⟨rfl, rfl⟩
      | Obsolete => exact ⟨rfl, rfl⟩
    · cases request with
      | Block req =>
          cases hd : s.chain_sync.decodeBlockResponseResult resp with
          | error e => simp only [hd]; exact ⟨rfl, rfl⟩
          | ok proto =>
              simp only [hd]
              exact ⟨(sameTable_on_block_response s id req proto).1,
                (sameTable_on_block_response s id req proto).2⟩
      | State =>
          cases hd : s.chain_sync.decodeStateResponseResult resp with
          | error e => simp only [hd]; exact ⟨rfl, rfl⟩
          | ok proto =>
              simp only [hd]
              exact ⟨(sameTable_on_state_response s id proto).1,
                (sameTable_on_state_response s id proto).2⟩
      | WarpProof =>
          exact ⟨(sameTable_on_warp_sync_response s id resp).1,
            (sameTable_on_warp_sync_response s id resp).2⟩

theorem sameTable_foldl {α : Type} (f : SyncingHelper → α → SyncingHelper)
    (hf : ∀ s a, SameTable s (f s a)) (l : List α) (s : SyncingHelper) :
    SameTable s (l.foldl f s) := by
  induction l generalizing s with
  | nil => exact sameTable_refl s
  | cons x t ih => exact sameTable_trans (hf s x) (ih (f s x))

theorem sameTable_tick_fold (l : List (PeerId × BlockRequest)) (s : SyncingHelper) :
    SameTable s (l.foldl (fun acc p =>
      let pr := prepare_block_request acc p.1 p.2
      { pr.1 with pending_messages := pr.1.pending_messages ++ [pr.2] }) s) :=
  sameTable_foldl
    (fun acc p =>
      let pr := prepare_block_request acc p.1 p.2
      { pr.1 with pending_messages := pr.1.pending_messages ++ [pr.2] })
    (fun _ _ => ⟨rfl, rfl⟩) l s

theorem sameTable_state_step (t : SyncingHelper) :
    SameTable t (match t.chain_sync.stateRequestDue with
      | some (id, request) =>
          let pr := prepare_state_request t id request
          { pr.1 with pending_messages := pr.1.pending_messages ++ [pr.2] }
      | none => t) := by
  rcases h : t.chain_sync.stateRequestDue with _ | ⟨id, request⟩ <;> simp only [h] <;>
    exact ⟨rfl, rfl⟩

theorem sameTable_warp_step (t : SyncingHelper) :
    SameTable t (match t.chain_sync.warpSyncRequestDue with
      | some (id, request) =>
          let pr := prepare_warp_sync_request t id request
          { pr.1 with pending_messages := pr.1.pending_messages ++ [pr.2] }
      | none => t) := by
  rcases h : t.chain_sync.warpSyncRequestDue with _ | ⟨id, request⟩ <;> simp only [h] <;>
    exact ⟨rfl, rfl⟩

theorem sameTable_dispatch_tick (s : SyncingHelper) :
    SameTable s (dispatch_tick s) := by
  unfold dispatch_tick
  exact sameTable_trans (sameTable_tick_fold _ s)
    (sameTable_trans (sameTable_state_step _)
      (sameTable_trans (sameTable_tick_fold _ _) (sameTable_warp_step _)))

theorem sameTable_on_blocks_processed (s : SyncingHelper) :
    SameTable s (on_blocks_processed s).1 := by
  unfold on_blocks_processed
  have h : ∀ (l : List (Except BadPeer (PeerId × BlockRequest)))
      (acc : SyncingHelper × List CustomMessageOutcome),
      SameTable acc.1 (l.foldl (fun acc r =>
        match r with
        | Except.ok (id, req) =>
            let pr := prepare_block_request acc.1 id req
            (pr.1, acc.2 ++ [pr.2])
        | Except.error b => (disconnect_and_report_peer acc.1 b.id b.rep, acc.2)) acc).1 := by
    intro l
    induction l with
    | nil => exact fun _ => sameTable_refl _
    | cons x t ih =>
        intro acc
        rw [List.foldl_cons]
        rcases x with b | ⟨id, req⟩
        · exact sameTable_trans ⟨rfl, rfl⟩ (ih _)
        · exact sameTable_trans ⟨rfl, rfl⟩ (ih _)
  exact h _ _

theorem containsKey_false_lookup_none (l : List (PeerId × Peer)) (k : PeerId)
    (h : ¬containsKey l k = true) : lookupKey l k = none := by
  unfold containsKey at h
  cases hl : lookupKey l k with
  | none => rfl
  | some v => rw [hl] at h; simp at h

theorem tableInv_disconnect (s : SyncingHelper) (hInv : TableInv s) (p : PeerId) :
    TableInv (on_sync_peer_disconnected s p).1 ∧
    p ∉ peerTableKeys (on_sync_peer_disconnected s p).1.peers ∧
    p ∉ (on_sync_peer_disconnected s p).1.default_peers_set_no_slot_connected_peers := by
  simp only [on_sync_peer_disconnected]
  by_cases hc : containsKey s.peers p = true
  · rw [if_pos hc]
    refine ⟨⟨?_, ?_⟩, ?_, ?_⟩
    · show (peerTableKeys (eraseKey s.peers p)).Nodup
      rw [peerTableKeys_eraseKey]
      exact hInv.1.filter _
    · intro q hq
      have h2 := (mem_setErase _ _ _).mp hq
      show q ∈ peerTableKeys (eraseKey s.peers p)
      rw [peerTableKeys_eraseKey, List.mem_filter]
      exact ⟨hInv.2 q h2.1, by simpa using h2.2⟩
    · show p ∉ peerTableKeys (eraseKey s.peers p)
      rw [peerTableKeys_eraseKey, List.mem_filter]
      rintro ⟨_, hpp⟩
      simp at hpp
    · exact not_mem_setErase_self _ _
  · rw [if_neg hc]
    have hn := containsKey_false_lookup_none s.peers p hc
    have hmem := lookupKey_none_not_mem s.peers p hn
    exact ⟨hInv, hmem, fun hin => hmem (hInv.2 p hin)⟩

theorem connect_rejects_already_connected (s : SyncingHelper) (who : PeerId)
    (status : BlockAnnouncesHandshake) (hc : containsKey s.peers who = true) :
    (on_sync_peer_connected s who status).2 = Except.error () := by
  unfold on_sync_peer_connected
  rw [if_pos hc]

theorem tableInv_push_validation (s : SyncingHelper) (hInv : TableInv s)
    (who : PeerId) (a : BlockAnnounce) :
    TableInv (push_block_announce_validation s who a) := by
  simp only [push_block_announce_validation]
  cases hl : lookupKey s.peers who with
  | none => exact @tableInv_of_fields s _ rfl rfl hInv
  | some peer =>
      dsimp only
      split_ifs with h
      · refine ⟨?_, ?_⟩
        · show (peerTableKeys (updateKey s.peers who _)).Nodup
          rw [peerTableKeys_updateKey]
          exact hInv.1
        · intro q hq
          show q ∈ peerTableKeys (updateKey s.peers who _)
          rw [peerTableKeys_updateKey]
          exact hInv.2 q hq
      · refine ⟨?_, ?_⟩
        · show (peerTableKeys (updateKey s.peers who _)).Nodup
          rw [peerTableKeys_updateKey]
          exact hInv.1
        · intro q hq
          show q ∈ peerTableKeys (updateKey s.peers who _)
          rw [peerTableKeys_updateKey]
          exact hInv.2 q hq

theorem tableInv_notification (s : SyncingHelper) (hInv : TableInv s)
    (dec : List Nat → Option BlockAnnounce) (peer : PeerId) (message : List Nat) :
    TableInv (notification dec s peer message).1 := by
  unfold notification
  split_ifs with h
  · cases dec message with
    | none => exact hInv
    | some a => exact tableInv_push_validation s hInv peer a
  · exact hInv

theorem tableInv_custom_protocol_close (s : SyncingHelper) (hInv : TableInv s)
    (peer : PeerId) : TableInv (custom_protocol_close s peer).1 := by
  unfold custom_protocol_close
  rcases hd : on_sync_peer_disconnected s peer with ⟨s1, res⟩
  have h := (tableInv_disconnect s hInv peer).1
  rw [hd] at h
  cases res with
  | ok m => exact h
  | error e => exact h

theorem tableInv_custom_protocol_open (s : SyncingHelper) (hInv : TableInv s)
    (dec : List Nat → HandshakeDecode) (peer_id : PeerId)
    (received_handshake : List Nat) :
    TableInv (custom_protocol_open dec s peer_id received_handshake).1 := by
  unfold custom_protocol_open
  cases dec received_handshake with
  | statusMsg h =>
      dsimp only
      rcases hc : on_sync_peer_connected s peer_id h with ⟨s1, res⟩
      have hInv1 := tableInv_connect s hInv peer_id h
      rw [hc] at hInv1
      rcases res with e | m
      · exact hInv1
      · cases m with
        | none => exact hInv1
        | some inner => exact hInv1
  | rawHandshake h =>
      dsimp only
      rcases hc : on_sync_peer_connected s peer_id h with ⟨s1, res⟩
      have hInv1 := tableInv_connect s hInv peer_id h
      rw [hc] at hInv1
      rcases res with e | m
      · exact hInv1
      · cases m with
        | none => exact hInv1
        | some inner => exact hInv1
  | otherMsg => exact hInv
  | failed => exact hInv

/-- C9: every modelled orchestrator operation preserves the Peer Table
invariants (duplicate-free peer identities, and the no-slot-connected set a
subset of the table's keys); a handshake from an already-connected peer is
rejected; and after on_sync_peer_disconnected the peer is absent from both
the Peer Table and the no-slot-connected set. -/
theorem c9_table_invariants (s : SyncingHelper) (hInv : TableInv s)
    (who p : PeerId) (status : BlockAnnouncesHandshake)
    (dec : List Nat → Option BlockAnnounce) (message : List Nat)
    (dech : List Nat → HandshakeDecode) (raw : List Nat)
    (id : PeerId) (request : PeerRequest)
    (response : Except Unit (Except RequestFailure (List Nat)))
    (hc : containsKey s.peers who = true) :
    TableInv (on_sync_peer_connected s p status).1 ∧
    TableInv (on_sync_peer_disconnected s p).1 ∧
    TableInv (notification dec s p message).1 ∧
    TableInv (custom_protocol_open dech s p raw).1 ∧
    TableInv (custom_protocol_close s p).1 ∧
    TableInv (handle_pending_response s id request response) ∧
    TableInv (dispatch_tick s) ∧
    TableInv (on_blocks_processed s).1 ∧
    (on_sync_peer_connected s who status).2 = Except.error () ∧
    p ∉ peerTableKeys (on_sync_peer_disconnected s p).1.peers ∧
    p ∉ (on_sync_peer_disconnected s p).1.default_peers_set_no_slot_connected_peers :=
  ⟨tableInv_connect s hInv p status,
   (tableInv_disconnect s hInv p).1,
   tableInv_notification s hInv dec p message,
   tableInv_custom_protocol_open s hInv dech p raw,
   tableInv_custom_protocol_close s hInv p,
   tableInv_of_sameTable (sameTable_handle_pending_response s id request response) hInv,
   tableInv_of_sameTable (sameTable_dispatch_tick s) hInv,
   tableInv_of_sameTable (sameTable_on_blocks_processed s) hInv,
   connect_rejects_already_connected s who status hc,
   (tableInv_disconnect s hInv p).2.1,
   (tableInv_disconnect s hInv p).2.2⟩

/-- The slot-accounting invariant of the spec, together with the Peer Table
invariants and the consistency fact that the chain-sync collaborator tracks
exactly the full-role peers of the table. -/
def SlotInv (s : SyncingHelper) : Prop :=
  TableInv s ∧
  s.chain_sync.reg.length = countFull s.peers ∧
  countFull s.peers ≤ s.default_peers_set_num_full +
    s.default_peers_set_no_slot_connected_peers.length

theorem countFull_insertKey_full (l : List (PeerId × Peer)) (k : PeerId) (v : Peer)
    (hn : lookupKey l k = none) (hv : v.info.roles.is_full = true) :
    countFull (insertKey l k v) = countFull l + 1 := by
  unfold insertKey
  rw [eraseKey_of_lookup_none l k hn]
  unfold countFull
  rw [List.filter_cons]
  simp only [hv, if_true]
  rfl

theorem countFull_insertKey_light (l : List (PeerId × Peer)) (k : PeerId) (v : Peer)
    (hn : lookupKey l k = none) (hv : v.info.roles.is_full = false) :
    countFull (insertKey l k v) = countFull l := by
  unfold insertKey
  rw [eraseKey_of_lookup_none l k hn]
  unfold countFull
  rw [List.filter_cons]
  simp [hv]

theorem length_setInsert_not_mem (x : PeerId) (l : List PeerId) (h : x ∉ l) :
    (setInsert x l).length = l.length + 1 := by
  unfold setInsert
  rw [if_neg h]
  rfl

theorem slot_accept_full_res (s : SyncingHelper) (hInv : SlotInv s) (who : PeerId)
    (st : BlockAnnouncesHandshake)
    (h1 : ¬containsKey s.peers who = true)
    (hf : st.roles.is_full = true)
    (hx : ¬(st.roles.is_full = true ∧
      s.chain_sync.num_peers ≥ s.default_peers_set_num_full +
        s.default_peers_set_no_slot_connected_peers.length + 1)) :
    (who :: s.chain_sync.reg).length =
      countFull (insertKey s.peers who
        { info := { roles := st.roles, best_hash := st.best_hash,
                    best_number := st.best_number }, known_blocks := [] }) ∧
    countFull (insertKey s.peers who
        { info := { roles := st.roles, best_hash := st.best_hash,
                    best_number := st.best_number }, known_blocks := [] }) ≤
      s.default_peers_set_num_full +
        (setInsert who s.default_peers_set_no_slot_connected_peers).length := by
  have hn := containsKey_false_lookup_none _ _ h1
  have hwk := lookupKey_none_not_mem _ _ hn
  have hwns : who ∉ s.default_peers_set_no_slot_connected_peers :=
    fun hm => hwk (hInv.1.2 who hm)
  have hcf := countFull_insertKey_full s.peers who
    { info := { roles := st.roles, best_hash := st.best_hash,
                best_number := st.best_number }, known_blocks := [] } hn hf
  have hlt : s.chain_sync.reg.length < s.default_peers_set_num_full +
      s.default_peers_set_no_slot_connected_peers.length + 1 := by
    rcases Nat.lt_or_ge s.chain_sync.reg.length (s.default_peers_set_num_full +
      s.default_peers_set_no_slot_connected_peers.length + 1) with h | h
    · exact h
    · exact absurd ⟨hf, h⟩ hx
  have hreg := hInv.2.1
  rw [List.length_cons, hcf, length_setInsert_not_mem _ _ hwns]
  omega

theorem slot_accept_full_plain (s : SyncingHelper) (hInv : SlotInv s) (who : PeerId)
    (st : BlockAnnouncesHandshake)
    (h1 : ¬containsKey s.peers who = true)
    (hf : st.roles.is_full = true)
    (hx : ¬(st.roles.is_full = true ∧
      s.chain_sync.num_peers ≥ s.default_peers_set_num_full +
        s.default_peers_set_no_slot_connected_peers.length + 0)) :
    (who :: s.chain_sync.reg).length =
      countFull (insertKey s.peers who
        { info := { roles := st.roles, best_hash := st.best_hash,
                    best_number := st.best_number }, known_blocks := [] }) ∧
    countFull (insertKey s.peers who
        { info := { roles := st.roles, best_hash := st.best_hash,
                    best_number := st.best_number }, known_blocks := [] }) ≤
      s.default_peers_set_num_full +
        s.default_peers_set_no_slot_connected_peers.length := by
  have hnp : s.chain_sync.num_peers = s.chain_sync.reg.length := rfl
  have hn := containsKey_false_lookup_none _ _ h1
  have hcf := countFull_insertKey_full s.peers who
    { info := { roles := st.roles, best_hash := st.best_hash,
                best_number := st.best_number }, known_blocks := [] } hn hf
  have hlt : s.chain_sync.reg.length < s.default_peers_set_num_full +
      s.default_peers_set_no_slot_connected_peers.length := by
    rcases Nat.lt_or_ge s.chain_sync.reg.length (s.default_peers_set_num_full +
      s.default_peers_set_no_slot_connected_peers.length) with h | h
    · exact h
    · exact absurd ⟨hf, by omega⟩ hx
  have hreg := hInv.2.1
  rw [List.length_cons, hcf]
  omega

theorem slot_accept_light_res (s : SyncingHelper) (hInv : SlotInv s) (who : PeerId)
    (st : BlockAnnouncesHandshake)
    (h1 : ¬containsKey s.peers who = true)
    (hf : ¬st.roles.is_full = true) :
    s.chain_sync.reg.length =
      countFull (insertKey s.peers who
        { info := { roles := st.roles, best_hash := st.best_hash,
                    best_number := st.best_number }, known_blocks := [] }) ∧
    countFull (insertKey s.peers who
        { info := { roles := st.roles, best_hash := st.best_hash,
                    best_number := st.best_number }, known_blocks := [] }) ≤
      s.default_peers_set_num_full +
        (setInsert who s.default_peers_set_no_slot_connected_peers).length := by
  have hn := containsKey_false_lookup_none _ _ h1
  have hwk := lookupKey_none_not_mem _ _ hn
  have hwns : who ∉ s.default_peers_set_no_slot_connected_peers :=
    fun hm => hwk (hInv.1.2 who hm)
  have hcf := countFull_insertKey_light s.peers who
    { info := { roles := st.roles, best_hash := st.best_hash,
                best_number := st.best_number }, known_blocks := [] } hn
    (Bool.not_eq_true _ |>.mp hf)
  have hreg := hInv.2.1
  have hbound := hInv.2.2
  rw [hcf, length_setInsert_not_mem _ _ hwns]
  omega

theorem slot_accept_light_plain (s : SyncingHelper) (hInv : SlotInv s) (who : PeerId)
    (st : BlockAnnouncesHandshake)
    (h1 : ¬containsKey s.peers who = true)
    (hf : ¬st.roles.is_full = true) :
    s.chain_sync.reg.length =
      countFull (insertKey s.peers who
        { info := { roles := st.roles, best_hash := st.best_hash,
                    best_number := st.best_number }, known_blocks := [] }) ∧
    countFull (insertKey s.peers who
        { info := { roles := st.roles, best_hash := st.best_hash,
                    best_number := st.best_number }, known_blocks := [] }) ≤
      s.default_peers_set_num_full +
        s.default_peers_set_no_slot_connected_peers.length := by
  have hn := containsKey_false_lookup_none _ _ h1
  have hcf := countFull_insertKey_light s.peers who
    { info := { roles := st.roles, best_hash := st.best_hash,
                best_number := st.best_number }, known_blocks := [] } hn
    (Bool.not_eq_true _ |>.mp hf)
  have hreg := hInv.2.1
  have hbound := hInv.2.2
  rw [hcf]
  omega

theorem slotInv_connect (s : SyncingHelper) (hInv : SlotInv s) (who : PeerId)
    (status : BlockAnnouncesHandshake) :
    SlotInv (on_sync_peer_connected s who status).1 := by
  refine ⟨tableInv_connect s hInv.1 who status, ?_⟩
  simp only [on_sync_peer_connected]
  split_ifs with h1 h2 h3 h4 h5 h6
  all_goals simp only [ChainSyncState.new_peer]
  all_goals
    cases hr : s.chain_sync.newPeerResult who status.best_hash status.best_number with
    | error b =>
        try simp only [hr]
        first
        | exact hInv.2
        | (try dsimp only
           first
           | (refine slot_accept_full_res s hInv who status h1 ?_ ?_ <;> assumption)
           | (refine slot_accept_full_plain s hInv who status h1 ?_ ?_ <;> assumption)
           | (refine slot_accept_light_res s hInv who status h1 ?_ <;> assumption)
           | (refine slot_accept_light_plain s hInv who status h1 ?_ <;> assumption))
    | ok req =>
        try simp only [hr]
        cases req with
        | none =>
            first
            | exact hInv.2
            | (try dsimp only
               first
               | (refine slot_accept_full_res s hInv who status h1 ?_ ?_ <;> assumption)
               | (refine slot_accept_full_plain s hInv who status h1 ?_ ?_ <;> assumption)
               | (refine slot_accept_light_res s hInv who status h1 ?_ <;> assumption)
               | (refine slot_accept_light_plain s hInv who status h1 ?_ <;> assumption))
        | some r =>
            first
            | exact hInv.2
            | (try dsimp only
               first
               | (refine slot_accept_full_res s hInv who status h1 ?_ ?_ <;> assumption)
               | (refine slot_accept_full_plain s hInv who status h1 ?_ ?_ <;> assumption)
               | (refine slot_accept_light_res s hInv who status h1 ?_ <;> assumption)
               | (refine slot_accept_light_plain s hInv who status h1 ?_ <;> assumption))

/-- Apply a sequence of handshake attempts (accept/reject decisions) in
order. -/
def applyConnects (s : SyncingHelper)
    (events : List (PeerId × BlockAnnouncesHandshake)) : SyncingHelper :=
  events.foldl (fun t e => (on_sync_peer_connected t e.1 e.2).1) s

theorem slotInv_applyConnects (s : SyncingHelper) (hInv : SlotInv s)
    (events : List (PeerId × BlockAnnouncesHandshake)) :
    SlotInv (applyConnects s events) := by
  induction events generalizing s with
  | nil => exact hInv
  | cons e t ih => exact ih _ (slotInv_connect s hInv e.1 e.2)

/-- C1 (amended): restricted to sequences of handshake accept/reject
decisions without disconnections, starting from a state satisfying the slot
invariant (which the freshly constructed orchestrator does), the number of
full-role peers in the Peer Table never exceeds the configured full budget
plus the number of connected no-slot peers; and on_sync_peer_connected
rejects a full-role peer whenever the chain-sync collaborator already tracks
at least configured_full_budget + count(no_slot_connected) +
(1 if the peer is exempt else 0) peers.  Sequences containing disconnections
violate the bound: see the counterexample. -/
theorem c1_full_slot_budget (s : SyncingHelper) (hInv : SlotInv s)
    (events : List (PeerId × BlockAnnouncesHandshake))
    (who : PeerId) (status : BlockAnnouncesHandshake)
    (hfull : status.roles.is_full = true)
    (hbudget : s.chain_sync.num_peers ≥
      s.default_peers_set_num_full +
        s.default_peers_set_no_slot_connected_peers.length +
        (if who ∈ s.default_peers_set_no_slot_peers then 1 else 0)) :
    countFull (applyConnects s events).peers ≤
      (applyConnects s events).default_peers_set_num_full +
        (applyConnects s events).default_peers_set_no_slot_connected_peers.length ∧
    (on_sync_peer_connected s who status).2 = Except.error () := by
  constructor
  · exact (slotInv_applyConnects s hInv events).2.2
  · simp only [on_sync_peer_connected]
    split_ifs
    all_goals first
    | rfl
    | (exfalso
       first
       | exact absurd hfull (by assumption)
       | (rw [if_pos (of_decide_eq_true (by assumption))] at hbudget
          exact (by assumption : ¬(status.roles.is_full = true ∧
            s.chain_sync.num_peers ≥ s.default_peers_set_num_full +
              s.default_peers_set_no_slot_connected_peers.length + 1))
            ⟨hfull, hbudget⟩)
       | (have hnm : ¬who ∈ s.default_peers_set_no_slot_peers := fun hm =>
            (by assumption : ¬decide (who ∈ s.default_peers_set_no_slot_peers) = true)
              (decide_eq_true hm)
          rw [if_neg hnm] at hbudget
          exact (by assumption : ¬(status.roles.is_full = true ∧
            s.chain_sync.num_peers ≥ s.default_peers_set_num_full +
              s.default_peers_set_no_slot_connected_peers.length + 0))
            ⟨hfull, hbudget⟩))

def c1WitnessState : SyncingHelper :=
  { helperBase with default_peers_set_num_full := 0 }

/-- C1 witness: the amended theorem applied at a fresh state with a zero full
budget and a single attempted full-role handshake, which is rejected. -/
theorem c1_witness :
    SlotInv c1WitnessState ∧
    fullHandshake.roles.is_full = true ∧
    c1WitnessState.chain_sync.num_peers ≥
      c1WitnessState.default_peers_set_num_full +
        c1WitnessState.default_peers_set_no_slot_connected_peers.length +
        (if (1 : PeerId) ∈ c1WitnessState.default_peers_set_no_slot_peers then 1 else 0) ∧
    countFull (applyConnects c1WitnessState [(1, fullHandshake)]).peers ≤
      (applyConnects c1WitnessState [(1, fullHandshake)]).default_peers_set_num_full +
        (applyConnects c1WitnessState
          [(1, fullHandshake)]).default_peers_set_no_slot_connected_peers.length ∧
    (on_sync_peer_connected c1WitnessState 1 fullHandshake).2 = Except.error () := by
  have hInv : SlotInv c1WitnessState := ⟨⟨by decide, by decide⟩, by decide, by decide⟩
  have h := c1_full_slot_budget c1WitnessState hInv [(1, fullHandshake)] 1 fullHandshake
    rfl (by decide)
  exact ⟨hInv, rfl, by decide, h.1, h.2⟩

/-- C9 witness: the invariant-preservation theorem applied to the state with
light peers 1 and 2 connected; peer 1 re-handshaking is rejected, and peer 2
is absent from the table and the no-slot-connected set after disconnecting. -/
theorem c9_witness :
    TableInv c5Step2.1 ∧
    containsKey c5Step2.1.peers 1 = true ∧
    TableInv (on_sync_peer_connected c5Step2.1 2 lightHandshake).1 ∧
    TableInv (on_sync_peer_disconnected c5Step2.1 2).1 ∧
    (on_sync_peer_connected c5Step2.1 1 lightHandshake).2 = Except.error () ∧
    (2 : PeerId) ∉ peerTableKeys (on_sync_peer_disconnected c5Step2.1 2).1.peers ∧
    (2 : PeerId) ∉
      (on_sync_peer_disconnected c5Step2.1 2).1.default_peers_set_no_slot_connected_peers := by
  have hInv : TableInv c5Step2.1 := ⟨by decide, by decide⟩
  have h := c9_table_invariants c5Step2.1 hInv 1 2 lightHandshake (fun _ => none) []
    (fun _ => HandshakeDecode.failed) [] 1 PeerRequest.State (Except.error ()) (by decide)
  exact ⟨hInv, by decide, h.1, h.2.1, h.2.2.2.2.2.2.2.2.1, h.2.2.2.2.2.2.2.2.2.1,
    h.2.2.2.2.2.2.2.2.2.2⟩
